import Mathlib

/-!
Verification of the rundler gas-estimation core against its specification.

The definitions below are a shallow embedding of:
- `src/rpc/eth/estimation.rs` (gas estimator: verification-gas binary search,
  call-gas proxy search, orchestrator, proxy-bytecode relocation), and
- `crates/types/src/user_operation/v0_6.rs` (v0.6 user operation model,
  hashing, optional-gas conversion).

Machine integers are modelled as `Nat` with explicit `% 2 ^ w` where overflow
matters; `Bytes` is `List Nat` (each element a byte value); fallible Rust code
returns `Except` / an explicit outcome type; Rust panics and loop divergence
are explicit outcome constructors.
-/

namespace Rundler

/-! ## Keccak-256

Executable embedding of keccak-256 (the hash used by
`alloy_primitives::keccak256`), needed for the v0.6 user-operation hash.
Lanes are 64-bit words modelled as `Nat` below `2 ^ 64`.
-/

/-- Bitwise XOR on 64-bit words. -/
def xor64 (a b : Nat) : Nat := Nat.xor a b

/-- Bitwise AND on 64-bit words. -/
def and64 (a b : Nat) : Nat := Nat.land a b

/-- Bitwise NOT on 64-bit words. -/
def not64 (a : Nat) : Nat := (2 ^ 64 - 1) - a % 2 ^ 64

/-- Left-rotation of a 64-bit word by `n` places. -/
def rotl64 (a n : Nat) : Nat := a * 2 ^ n % 2 ^ 64 + a % 2 ^ 64 / 2 ^ (64 - n)

/-- The 24 keccak-f round constants. -/
def keccakRoundConstants : List Nat :=
  [0x0000000000000001, 0x0000000000008082, 0x800000000000808a, 0x8000000080008000,
   0x000000000000808b, 0x0000000080000001, 0x8000000080008081, 0x8000000000008009,
   0x000000000000008a, 0x0000000000000088, 0x0000000080008009, 0x000000008000000a,
   0x000000008000808b, 0x800000000000008b, 0x8000000000008089, 0x8000000000008003,
   0x8000000000008002, 0x8000000000000080, 0x000000000000800a, 0x800000008000000a,
   0x8000000080008081, 0x8000000000008080, 0x0000000080000001, 0x8000000080008008]

/-- Combined rho/pi table: entry at destination index `y + 5 * ((2x + 3y) % 5)`
is the source index `x + 5 * y` together with that lane's rotation offset. -/
def keccakPiTable : List (Nat × Nat) :=
  [(0, 0), (6, 44), (12, 43), (18, 21), (24, 14),
   (3, 28), (9, 20), (10, 3), (16, 45), (22, 61),
   (1, 1), (7, 6), (13, 25), (19, 8), (20, 18),
   (4, 27), (5, 36), (11, 10), (17, 15), (23, 56),
   (2, 62), (8, 55), (14, 39), (15, 41), (21, 2)]

/-- Theta step of a keccak-f round. -/
def keccakTheta (s : List Nat) : List Nat :=
  let c := (List.range 5).map fun x =>
    xor64 (xor64 (xor64 (xor64 (s.getD x 0) (s.getD (x + 5) 0)) (s.getD (x + 10) 0))
      (s.getD (x + 15) 0)) (s.getD (x + 20) 0)
  let d := (List.range 5).map fun x =>
    xor64 (c.getD ((x + 4) % 5) 0) (rotl64 (c.getD ((x + 1) % 5) 0) 1)
  (List.range 25).map fun i => xor64 (s.getD i 0) (d.getD (i % 5) 0)

/-- Combined rho and pi steps of a keccak-f round. -/
def keccakRhoPi (s : List Nat) : List Nat :=
  keccakPiTable.map fun p => rotl64 (s.getD p.1 0) p.2

/-- Chi step of a keccak-f round. -/
def keccakChi (s : List Nat) : List Nat :=
  (List.range 25).map fun i =>
    let x := i % 5
    let y := i / 5
    xor64 (s.getD i 0)
      (and64 (not64 (s.getD (5 * y + (x + 1) % 5) 0)) (s.getD (5 * y + (x + 2) % 5) 0))

/-- One keccak-f round: theta, rho, pi, chi, iota (XOR of the round constant). -/
def keccakRound (s : List Nat) (rc : Nat) : List Nat :=
  let t := keccakChi (keccakRhoPi (keccakTheta s))
  t.set 0 (xor64 (t.getD 0 0) rc)

/-- The keccak-f[1600] permutation (24 rounds). -/
def keccakF (s : List Nat) : List Nat :=
  keccakRoundConstants.foldl keccakRound s

/-- Interpret 8 bytes starting at offset `off` of `block` as a little-endian
64-bit lane. -/
def laneOfBytes (block : List Nat) (off : Nat) : Nat :=
  block.getD off 0 + 2 ^ 8 * block.getD (off + 1) 0 + 2 ^ 16 * block.getD (off + 2) 0 +
    2 ^ 24 * block.getD (off + 3) 0 + 2 ^ 32 * block.getD (off + 4) 0 +
    2 ^ 40 * block.getD (off + 5) 0 + 2 ^ 48 * block.getD (off + 6) 0 +
    2 ^ 56 * block.getD (off + 7) 0

/-- Absorb one 136-byte block into the sponge state and permute. -/
def keccakAbsorbBlock (s : List Nat) (block : List Nat) : List Nat :=
  keccakF ((List.range 25).map fun i =>
    if i < 17 then xor64 (s.getD i 0) (laneOfBytes block (8 * i)) else s.getD i 0)

/-- Absorb a padded message, one 136-byte block at a time. Fuel is the number
of blocks remaining, making recursion structural. -/
def keccakAbsorb (s : List Nat) (padded : List Nat) : Nat → List Nat
  | 0 => s
  | n + 1 => keccakAbsorb (keccakAbsorbBlock s (padded.take 136)) (padded.drop 136) n

/-- Keccak pad10*1 padding with domain byte 0x01 (original keccak, as used by
Ethereum), to a multiple of the 136-byte rate. -/
def keccakPad (msg : List Nat) : List Nat :=
  let padLen := 136 - msg.length % 136
  if padLen = 1 then msg ++ [0x81]
  else msg ++ 0x01 :: List.replicate (padLen - 2) 0x00 ++ [0x80]

/-- Split a 64-bit lane into its 8 little-endian bytes. -/
def laneToBytes (lane : Nat) : List Nat :=
  [lane % 2 ^ 8, lane / 2 ^ 8 % 2 ^ 8, lane / 2 ^ 16 % 2 ^ 8, lane / 2 ^ 24 % 2 ^ 8,
   lane / 2 ^ 32 % 2 ^ 8, lane / 2 ^ 40 % 2 ^ 8, lane / 2 ^ 48 % 2 ^ 8, lane / 2 ^ 56 % 2 ^ 8]

/-- Keccak-256 of a byte string: pad, absorb, and squeeze 32 bytes. -/
def keccak256 (msg : List Nat) : List Nat :=
  let padded := keccakPad msg
  let s := keccakAbsorb (List.replicate 25 0) padded (padded.length / 136)
  laneToBytes (s.getD 0 0) ++ laneToBytes (s.getD 1 0) ++ laneToBytes (s.getD 2 0) ++
    laneToBytes (s.getD 3 0)

/-! ## UserOperation model (v0.6)

Embedding of `crates/types/src/user_operation/v0_6.rs`. Addresses and 256-bit
words are `Nat`; the four byte-string fields are `List Nat` (byte values);
the five 128-bit gas scalars are `Nat`.
-/

/-- User Operation for Entry Point v0.6 (struct `UserOperation`). -/
structure UserOperation where
  sender : Nat
  nonce : Nat
  init_code : List Nat
  call_data : List Nat
  call_gas_limit : Nat
  verification_gas_limit : Nat
  pre_verification_gas : Nat
  max_fee_per_gas : Nat
  max_priority_fee_per_gas : Nat
  paymaster_and_data : List Nat
  signature : List Nat
  deriving Repr, DecidableEq

/-- From `UserOperation::get_address_from_field`: the first 20 bytes of the
field, provided the field holds at least 20 bytes. -/
def get_address_from_field (data : List Nat) : Option (List Nat) :=
  if data.length < 20 then none else some (data.take 20)

/-- From `UserOperation::paymaster`. -/
def UserOperation.paymaster (op : UserOperation) : Option (List Nat) :=
  get_address_from_field op.paymaster_and_data

/-- From `UserOperation::factory`. -/
def UserOperation.factory (op : UserOperation) : Option (List Nat) :=
  get_address_from_field op.init_code

/-- Big-endian byte encoding of `n` in exactly `w` bytes (ABI word encoding
when `w = 32`; addresses are left-padded into a 32-byte word the same way). -/
def natToBytesBE (w n : Nat) : List Nat :=
  (List.range w).map fun i => n / 256 ^ (w - 1 - i) % 256

/-- ABI encoding of `UserOperationPackedForHash`: the three byte-string fields
are replaced by their keccak digests, every field then padded to a 32-byte
word; all ten fields are static, so the encoding is their concatenation. -/
def packedForHash (op : UserOperation) : List Nat :=
  natToBytesBE 32 op.sender ++ natToBytesBE 32 op.nonce ++
    keccak256 op.init_code ++ keccak256 op.call_data ++
    natToBytesBE 32 op.call_gas_limit ++ natToBytesBE 32 op.verification_gas_limit ++
    natToBytesBE 32 op.pre_verification_gas ++ natToBytesBE 32 op.max_fee_per_gas ++
    natToBytesBE 32 op.max_priority_fee_per_gas ++ keccak256 op.paymaster_and_data

/-- From `UserOperation::hash`: keccak of the ABI encoding of
`UserOperationHashEncoded = (keccak(packedForHash), entryPoint, chainId)`. -/
def UserOperation.hash (op : UserOperation) (entry_point chain_id : Nat) : List Nat :=
  keccak256 (keccak256 (packedForHash op) ++ natToBytesBE 32 entry_point ++
    natToBytesBE 32 chain_id)

/-- User operation with optional gas fields (struct `UserOperationOptionalGas`). -/
structure UserOperationOptionalGas where
  sender : Nat
  nonce : Nat
  init_code : List Nat
  call_data : List Nat
  call_gas_limit : Option Nat
  verification_gas_limit : Option Nat
  pre_verification_gas : Option Nat
  max_fee_per_gas : Option Nat
  max_priority_fee_per_gas : Option Nat
  paymaster_and_data : List Nat
  signature : List Nat
  deriving Repr, DecidableEq

/-- Modelled from the spec: the helper `default_if_none_or_equal` lives in
`crates/types/src/user_operation/mod.rs`, which is not among the provided
sources; per the spec, "missing or zero optional values are replaced by the
relevant cap", so the value is the default when the option is absent or equal
to the sentinel, and the supplied value otherwise. -/
def default_if_none_or_equal (v : Option Nat) (d : Nat) (eq : Nat) : Nat :=
  match v with
  | none => d
  | some x => if x = eq then d else x

/-- From `UserOperationOptionalGas::into_user_operation`. -/
def into_user_operation (self : UserOperationOptionalGas)
    (max_call_gas max_verification_gas : Nat) : UserOperation :=
  { sender := self.sender
    nonce := self.nonce
    init_code := self.init_code
    call_data := self.call_data
    paymaster_and_data := self.paymaster_and_data
    signature := self.signature
    verification_gas_limit :=
      default_if_none_or_equal self.verification_gas_limit max_verification_gas 0
    call_gas_limit := default_if_none_or_equal self.call_gas_limit max_call_gas 0
    pre_verification_gas := default_if_none_or_equal self.pre_verification_gas max_call_gas 0
    max_fee_per_gas := self.max_fee_per_gas.getD 0
    max_priority_fee_per_gas := self.max_priority_fee_per_gas.getD 0 }

/-- The all-zero v0.6 user operation of the `test_hash_zeroed` fixture. -/
def zeroedUserOperation : UserOperation :=
  { sender := 0, nonce := 0, init_code := [], call_data := [], call_gas_limit := 0
    verification_gas_limit := 0, pre_verification_gas := 0, max_fee_per_gas := 0
    max_priority_fee_per_gas := 0, paymaster_and_data := [], signature := [] }

/-! ## Gas estimator (src/rpc/eth/estimation.rs) -/

/-- Gas estimates are rounded up to the next multiple of this (`GAS_ROUNDING`). -/
def GAS_ROUNDING : Nat := 4096

/-- `VERIFICATION_GAS_BUFFER_PERCENT`. -/
def VERIFICATION_GAS_BUFFER_PERCENT : Nat := 10

/-- `GAS_FEE_TRANSFER_COST`: gas for the transfer to the entry point plus the
first-write cost of a zero storage slot, added when no paymaster is present. -/
def GAS_FEE_TRANSFER_COST : Nat := 30000

/-- `PROXY_TARGET_OFFSET`: offset of the proxy target address in the proxy
bytecode. -/
def PROXY_TARGET_OFFSET : Nat := 137

/-- The error enum `GasEstimationError`; `other` covers the `anyhow` variant. -/
inductive GasEstimationError where
  | revertInValidation (message : String)
  | revertInCallWithMessage (message : String)
  | revertInCallWithBytes (data : List Nat)
  | other (message : String)
  deriving Repr, DecidableEq

/-- Decidable equality for `Except`, needed to evaluate embedded results on
concrete inputs. -/
instance exceptDecidableEq {ε α : Type} [DecidableEq ε] [DecidableEq α] :
    DecidableEq (Except ε α)
  | .error a, .error b =>
    if h : a = b then .isTrue (by rw [h])
    else .isFalse fun he => h (Except.error.inj he)
  | .error _, .ok _ => .isFalse fun he => Except.noConfusion he
  | .ok _, .error _ => .isFalse fun he => Except.noConfusion he
  | .ok a, .ok b =>
    if h : a = b then .isTrue (by rw [h])
    else .isFalse fun he => h (Except.ok.inj he)

/-- The `Settings` struct (all fields u64). -/
structure Settings where
  max_verification_gas : Nat
  max_call_gas : Nat
  max_simulate_handle_ops_gas : Nat
  deriving Repr, DecidableEq

/-- The `GasEstimate` triple returned to callers. -/
structure GasEstimate where
  pre_verification_gas : Nat
  verification_gas_limit : Nat
  call_gas_limit : Nat
  deriving Repr, DecidableEq

/-- Outcome of running a piece of Rust code: a normal value, a surfaced
`GasEstimationError`, a Rust panic, or exhaustion of the loop fuel (the code
ran longer than the fuel allows; unbounded fuel nontermination). -/
inductive RustOutcome (α : Type) where
  | ok (a : α)
  | err (e : GasEstimationError)
  | panic
  | diverge
  deriving Repr, DecidableEq

/-- The `GasUsedResult` returned by the `GetGasUsed` helper contract for the
feasibility probe: gas used (a 256-bit word), whether the inner call
succeeded, and the raw revert data. -/
structure GasUsedResult where
  gas_used : Nat
  success : Bool
  result : List Nat
  deriving Repr, DecidableEq

/-- `U256::as_u64` narrows to 64 bits and panics (`none`) on overflow. -/
def asU64 (n : Nat) : Option Nat :=
  if n < 2 ^ 64 then some n else none

/-- State of the verification-gas binary search: the loop variables
`max_failure_gas`, `min_success_gas` and `guess` of
`binary_search_verification_gas`. -/
structure SearchState where
  maxFailureGas : Nat
  minSuccessGas : Nat
  guess : Nat
  deriving Repr, DecidableEq

/-- Loop-continuation test, modelling the f64 comparison
`(min_success_gas as f64) / (max_failure_gas as f64) > 1.0 + 0.1` by the exact
rational comparison `10 * min_success > 11 * max_failure`, with the IEEE
conventions at a zero denominator made explicit: `0.0 / 0.0` is NaN (compares
false) and `x / 0.0` for `x > 0` is infinity (compares true). -/
def continueCond (s : SearchState) : Bool :=
  if s.maxFailureGas = 0 then decide (0 < s.minSuccessGas)
  else decide (11 * s.maxFailureGas < 10 * s.minSuccessGas)

/-- One iteration of the binary-search loop body: run the attempt at `guess`
(`attemptFails guess = true` when `simulateHandleOp` reports a validation
error), move the matching bound to `guess`, and re-centre `guess`. -/
def searchStep (attemptFails : Nat → Bool) (s : SearchState) : SearchState :=
  let mf := if attemptFails s.guess then s.guess else s.maxFailureGas
  let ms := if attemptFails s.guess then s.minSuccessGas else s.guess
  { maxFailureGas := mf, minSuccessGas := ms, guess := (mf + ms) / 2 }

/-- The binary-search loop, fuelled; the second component counts the
`simulateHandleOp` attempts issued (`num_rounds` in the source). Returns
`none` when the fuel runs out with the loop still running. -/
def runSearch (attemptFails : Nat → Bool) : Nat → SearchState → Nat → Option SearchState × Nat
  | 0, s, n => (if continueCond s then none else some s, n)
  | fuel + 1, s, n =>
    if continueCond s then runSearch attemptFails fuel (searchStep attemptFails s) (n + 1)
    else (some s, n)

/-- Embedding of `binary_search_verification_gas`. The feasibility probe
result (after transport-error propagation) is `probe`; `decodeRevert` is the
outcome of `entry_point.decode_simulate_handle_ops_revert(probe.result)`
(`Except.error message` when the revert is not a valid `ExecutionResult`);
`attemptFails` gives each in-loop attempt outcome. The returned pair carries
the outcome and the number of in-loop attempts issued. -/
def binary_search_verification_gas (settings : Settings) (op : UserOperation)
    (probe : GasUsedResult) (decodeRevert : Except String Unit)
    (attemptFails : Nat → Bool) (fuel : Nat) : RustOutcome Nat × Nat :=
  if probe.success then
    (.err (.other "simulateHandleOp succeeded but should always revert"), 0)
  else
    match decodeRevert with
    | .error message => (.err (.revertInValidation message), 0)
    | .ok _ =>
      match asU64 probe.gas_used with
      | none => (.panic, 0)
      | some g =>
        match runSearch attemptFails fuel
            { maxFailureGas := 0, minSuccessGas := settings.max_verification_gas,
              guess := g * 2 } 0 with
        | (none, n) => (.diverge, n)
        | (some s, n) =>
          (.ok (if op.paymaster.isNone then s.minSuccessGas + GAS_FEE_TRANSFER_COST
                else s.minSuccessGas), n)

/-- Decoded form of the structured revert produced by the call-gas estimation
proxy, as decoded by `estimate_call_gas` (tried in this order:
`EstimateCallGasResult`, `EstimateCallGasRevertAtMax`,
`EstimateCallGasContinuation`, otherwise undecodable). For `revertAtMax`,
`parsedMessage` carries the outcome of `eth::parse_revert_message` on the
inner revert data. -/
inductive ProxyDecoded where
  | result (gas_estimate num_rounds : Nat)
  | revertAtMax (revert_data : List Nat) (parsedMessage : Option String)
  | continuation (min_gas max_gas num_rounds : Nat)
  | undecodable
  deriving Repr, DecidableEq

/-- Outcome of one `call_spoofed_simulate_op` round in `estimate_call_gas`:
a transport error (propagated via the question-mark operator), a validation
revert (`Ok(Err(message))`), or an execution whose `target_result` decodes as
`decoded`. -/
inductive SpoofedSimOutcome where
  | transportError (message : String)
  | validationRevert (message : String)
  | executed (decoded : ProxyDecoded)
  deriving Repr, DecidableEq

/-- Loop state of `estimate_call_gas`: `min_gas`, `max_gas`,
`is_continuation`, `num_rounds`. -/
structure CallGasState where
  min_gas : Nat
  max_gas : Nat
  is_continuation : Bool
  num_rounds : Nat
  deriving Repr, DecidableEq

/-- Embedding of the `estimate_call_gas` loop. The per-round responses of the
spoofed node are scripted in `responses`; an exhausted script models a loop
that is still running (`diverge`). -/
def estimate_call_gas (responses : List SpoofedSimOutcome) (s : CallGasState) :
    RustOutcome Nat :=
  match responses with
  | [] => .diverge
  | r :: rest =>
    match r with
    | .transportError message => .err (.other message)
    | .validationRevert message => .err (.revertInCallWithMessage message)
    | .executed decoded =>
      match decoded with
      | .result gas_estimate _ => .ok gas_estimate
      | .revertAtMax revert_data parsedMessage =>
        match parsedMessage with
        | some message => .err (.revertInCallWithMessage message)
        | none => .err (.revertInCallWithBytes revert_data)
      | .continuation cmin cmax cn =>
        if s.is_continuation ∧ cmin ≤ s.min_gas ∧ s.max_gas ≤ cmax then
          .err (.other "estimateCallGas should make progress each time it is called")
        else
          estimate_call_gas rest
            { min_gas := max s.min_gas cmin, max_gas := min s.max_gas cmax,
              is_continuation := true, num_rounds := s.num_rounds + cn }
      | .undecodable => .err (.other "estimateCallGas revert should be a Result or a Continuation")

/-- Initial state of the call-gas search: bounds `[0, max_call_gas]`, not a
continuation, zero rounds. -/
def initialCallGasState (settings : Settings) : CallGasState :=
  { min_gas := 0, max_gas := settings.max_call_gas, is_continuation := false, num_rounds := 0 }

/-- Modelled from the spec: `math::increase_by_percent` lives in
`src/common/math.rs`, which is not among the provided sources; the spec gives
`round_up(n × (1 + percent/100))`, i.e. the 110-percent product divided by
100, rounded up. -/
def increase_by_percent (n percent : Nat) : Nat :=
  (n * (100 + percent) + 99) / 100

/-- Rust `clamp`: panics (`none`) when `lo > hi`, else `min (max x lo) hi`. -/
def natClamp (x lo hi : Nat) : Option Nat :=
  if lo ≤ hi then some (min (max x lo) hi) else none

/-- Embedding of the post-processing of `estimate_op_gas`:
`pre_verification_gas` and the outcomes of the two concurrent searches are
inputs (the searches are awaited jointly; on a double failure the
verification error deterministically wins because it is unwrapped first).
`min_call_gas_limit` stands for the constant `MIN_CALL_GAS_LIMIT` from the
precheck module, which is not among the provided sources; no claim depends on
its numeric value. The result is `none` exactly when `clamp` panics. -/
def estimate_op_gas (settings : Settings) (min_call_gas_limit : Nat)
    (pre_verification_gas : Nat)
    (verificationResult callResult : Except GasEstimationError Nat) :
    Option (Except GasEstimationError GasEstimate) :=
  match verificationResult with
  | .error e => some (.error e)
  | .ok verification_gas_limit =>
    match callResult with
    | .error e => some (.error e)
    | .ok call_gas_limit =>
      match natClamp call_gas_limit min_call_gas_limit settings.max_call_gas with
      | none => none
      | some clamped =>
        some (.ok
          { pre_verification_gas := pre_verification_gas
            verification_gas_limit :=
              min (increase_by_percent verification_gas_limit VERIFICATION_GAS_BUFFER_PERCENT)
                settings.max_verification_gas
            call_gas_limit := clamped })

/-- The 20 bytes of the sentinel address `PROXY_TARGET_CONSTANT`
(`A13dB4eCfbce0586E57D1AeE224FbE64706E8cd3`). -/
def PROXY_TARGET_CONSTANT : List Nat :=
  [0xA1, 0x3d, 0xB4, 0xeC, 0xfb, 0xce, 0x05, 0x86, 0xE5, 0x7D,
   0x1A, 0xeE, 0x22, 0x4F, 0xbE, 0x64, 0x70, 0x6E, 0x8c, 0xd3]

/-- Modelled from the spec: the embedded artifact
`CALLGASESTIMATIONPROXY_DEPLOYED_BYTECODE` is produced out-of-band from the
Solidity proxy and is not among the provided sources; per the spec it is a
fixed blob whose only occurrence of the sentinel target address starts at
byte offset `PROXY_TARGET_OFFSET = 137`. It is modelled as a blob with the
sentinel at that offset and zero bytes elsewhere (no byte of the sentinel is
zero, so the sentinel occurs nowhere else). -/
def CALLGASESTIMATIONPROXY_DEPLOYED_BYTECODE : List Nat :=
  List.replicate 137 0x00 ++ PROXY_TARGET_CONSTANT ++ List.replicate 100 0x00

/-- Embedding of `estimation_proxy_bytecode_with_target`, generalised over the
blob: overwrite the 20 bytes at `PROXY_TARGET_OFFSET` with the target
address. -/
def estimation_proxy_bytecode_with_target (blob : List Nat) (target : List Nat) : List Nat :=
  blob.take PROXY_TARGET_OFFSET ++ target ++ blob.drop (PROXY_TARGET_OFFSET + 20)

/-- The offsets at which `PROXY_TARGET_CONSTANT` occurs in a blob, scanned
exactly as `test_proxy_target_offset` does (windows starting at
`0 .. blob.length - 20`, exclusive). -/
def sentinelOffsets (blob : List Nat) : List Nat :=
  (List.range (blob.length - 20)).filter fun i =>
    decide ((blob.drop i).take 20 = PROXY_TARGET_CONSTANT)

/-! ## Theorems -/

set_option maxRecDepth 4000 in
/-- Sanity check of the keccak embedding: hash of the empty byte string. -/
theorem keccak256_nil :
    keccak256 [] =
      [0xc5, 0xd2, 0x46, 0x01, 0x86, 0xf7, 0x23, 0x3c, 0x92, 0x7e, 0x7d, 0xb2, 0xdc, 0xc7,
       0x03, 0xc0, 0xe5, 0x00, 0xb6, 0x53, 0xca, 0x82, 0x27, 0x3b, 0x7b, 0xfa, 0xd8, 0x04,
       0x5d, 0x85, 0xa4, 0x70] := by decide

/-- Claim C1: for every input and every configuration with
`min_call_gas_limit ≤ max_call_gas`, any successfully returned estimate has
`verification_gas_limit ≤ max_verification_gas` and
`min_call_gas_limit ≤ call_gas_limit ≤ max_call_gas`. -/
theorem C1_output_clamping (settings : Settings) (min_call_gas_limit pvg : Nat)
    (vres cres : Except GasEstimationError Nat) (est : GasEstimate)
    (hmin : min_call_gas_limit ≤ settings.max_call_gas)
    (hret : estimate_op_gas settings min_call_gas_limit pvg vres cres = some (.ok est)) :
    est.verification_gas_limit ≤ settings.max_verification_gas ∧
      min_call_gas_limit ≤ est.call_gas_limit ∧
      est.call_gas_limit ≤ settings.max_call_gas := by
  match vres with
  | .error e => simp [estimate_op_gas] at hret
  | .ok v =>
    match cres with
    | .error e => simp [estimate_op_gas] at hret
    | .ok c =>
      have hclamp : natClamp c min_call_gas_limit settings.max_call_gas =
          some (min (max c min_call_gas_limit) settings.max_call_gas) := by
        simp [natClamp, hmin]
      simp only [estimate_op_gas, hclamp] at hret
      have h2 := Except.ok.inj (Option.some.inj hret)
      subst h2
      exact ⟨min_le_right _ _, le_min (le_max_right _ _) hmin, min_le_right _ _⟩

/-- Witness for C1 at a concrete input. -/
theorem C1_output_clamping_witness :
    (8 : Nat) ≤ 10 ∧ (100 : Nat) ≤ 5000 ∧ (5000 : Nat) ≤ 5000 :=
  C1_output_clamping ⟨10, 5000, 999⟩ 100 42 (.ok 7) (.ok 123456) ⟨42, 8, 5000⟩
    (by decide) (by decide)

/-- Claim C2 (amended): the returned `verification_gas_limit` equals
`min(max_verification_gas, round_up(raw × 1.1))`; when the raw search result
satisfies `1 ≤ raw ≤ max_verification_gas`, the returned value is at least
`raw`, and strictly greater unless it sits at the cap. (As originally
stated the consequence fails when the raw result exceeds the cap, which is
reachable: see the counterexample.) -/
theorem C2_buffer_law_amended (settings : Settings) (min_call_gas_limit pvg raw : Nat)
    (cres : Except GasEstimationError Nat) (est : GasEstimate)
    (hret : estimate_op_gas settings min_call_gas_limit pvg (.ok raw) cres = some (.ok est)) :
    est.verification_gas_limit =
      min (increase_by_percent raw VERIFICATION_GAS_BUFFER_PERCENT)
        settings.max_verification_gas ∧
      (1 ≤ raw → raw ≤ settings.max_verification_gas →
        raw ≤ est.verification_gas_limit ∧
          (est.verification_gas_limit ≠ settings.max_verification_gas →
            raw < est.verification_gas_limit)) := by
  match cres with
  | .error e => simp [estimate_op_gas] at hret
  | .ok c =>
    rcases hcl : natClamp c min_call_gas_limit settings.max_call_gas with _ | clamped
    · simp only [estimate_op_gas, hcl] at hret
      exact Option.noConfusion hret
    · simp only [estimate_op_gas, hcl] at hret
      have h2 := Except.ok.inj (Option.some.inj hret)
      subst h2
      dsimp only
      refine ⟨rfl, fun h1 hcap => ?_⟩
      have hd := Nat.div_add_mod (raw * (100 + 10) + 99) 100
      have hm : (raw * (100 + 10) + 99) % 100 < 100 := Nat.mod_lt _ (by omega)
      simp only [increase_by_percent, VERIFICATION_GAS_BUFFER_PERCENT]
      omega

/-- Witness for C2 (amended) at a concrete input: raw result 30000, cap
10000000000, buffered result 33000; both inner hypotheses discharged. -/
theorem C2_buffer_law_amended_witness :
    ((33000 : Nat) = min (increase_by_percent 30000 VERIFICATION_GAS_BUFFER_PERCENT)
          10000000000 ∧
        (1 ≤ 30000 → (30000 : Nat) ≤ 10000000000 →
          (30000 : Nat) ≤ 33000 ∧ ((33000 : Nat) ≠ 10000000000 → (30000 : Nat) < 33000))) ∧
      ((30000 : Nat) ≤ 33000 ∧ ((33000 : Nat) ≠ 10000000000 → (30000 : Nat) < 33000)) :=
  ⟨C2_buffer_law_amended ⟨10000000000, 10000000000, 100000000⟩ 100 43656 30000
      (.ok 10000) ⟨43656, 33000, 10000⟩ (by decide),
   (C2_buffer_law_amended ⟨10000000000, 10000000000, 100000000⟩ 100 43656 30000
      (.ok 10000) ⟨43656, 33000, 10000⟩ (by decide)).2 (by decide) (by decide)⟩

/-- Counterexample to claim C2 as stated: with `max_verification_gas = 1000`,
an all-failing attempt oracle and a probe using 600 gas, the verification
search returns the raw result 31000 (the cap plus `GAS_FEE_TRANSFER_COST`),
yet the estimator returns `verification_gas_limit = 1000 < 31000`, violating
the claimed `returned ≥ raw`. -/
theorem C2_buffer_law_counterexample :
    binary_search_verification_gas ⟨1000, 5000, 100000⟩ zeroedUserOperation
        ⟨600, false, []⟩ (.ok ()) (fun _ => true) 10 = (.ok 31000, 1) ∧
      estimate_op_gas ⟨1000, 5000, 100000⟩ 100 43656 (.ok 31000) (.ok 10000) =
        some (.ok ⟨43656, 1000, 5000⟩) ∧
      ¬ (31000 : Nat) ≤ 1000 := by decide

/-- Claim C3: if the feasibility probe reports `success == true` the function
returns an internal error; otherwise, if the revert does not decode to an
`ExecutionResult`, it returns `RevertInValidation` with the decoded message;
in both cases zero binary-search attempts are issued. -/
theorem C3_probe_error_handling (settings : Settings) (op : UserOperation)
    (probe : GasUsedResult) (decodeRevert : Except String Unit)
    (attemptFails : Nat → Bool) (fuel : Nat) (message : String) :
    (probe.success = true →
      binary_search_verification_gas settings op probe decodeRevert attemptFails fuel =
        (.err (.other "simulateHandleOp succeeded but should always revert"), 0)) ∧
      (probe.success = false →
        binary_search_verification_gas settings op probe (.error message) attemptFails fuel =
          (.err (.revertInValidation message), 0)) := by
  constructor
  · intro h
    simp [binary_search_verification_gas, h]
  · intro h
    simp [binary_search_verification_gas, h]

/-- Witness for C3 at concrete inputs. -/
theorem C3_probe_error_handling_witness :
    binary_search_verification_gas ⟨10, 10, 10⟩ zeroedUserOperation ⟨5, true, []⟩
        (.ok ()) (fun _ => true) 3 =
      (.err (.other "simulateHandleOp succeeded but should always revert"), 0) ∧
      binary_search_verification_gas ⟨10, 10, 10⟩ zeroedUserOperation ⟨5, false, []⟩
          (.error "validation reverted") (fun _ => true) 3 =
        (.err (.revertInValidation "validation reverted"), 0) :=
  ⟨(C3_probe_error_handling ⟨10, 10, 10⟩ zeroedUserOperation ⟨5, true, []⟩ (.ok ())
      (fun _ => true) 3 "validation reverted").1 rfl,
   (C3_probe_error_handling ⟨10, 10, 10⟩ zeroedUserOperation ⟨5, false, []⟩ (.ok ())
      (fun _ => true) 3 "validation reverted").2 rfl⟩

/-- Claim C4: when the binary-search loop finishes with state `s`, the value
returned is `s.minSuccessGas + GAS_FEE_TRANSFER_COST` exactly when the
operation has no paymaster (`paymaster_and_data` shorter than 20 bytes), and
`s.minSuccessGas` unchanged otherwise. -/
theorem C4_paymaster_adjustment (settings : Settings) (op : UserOperation)
    (probe : GasUsedResult) (attemptFails : Nat → Bool) (fuel : Nat)
    (s : SearchState) (n : Nat)
    (hsucc : probe.success = false)
    (hfit : probe.gas_used < 2 ^ 64)
    (hrun : runSearch attemptFails fuel
      { maxFailureGas := 0, minSuccessGas := settings.max_verification_gas,
        guess := probe.gas_used * 2 } 0 = (some s, n)) :
    binary_search_verification_gas settings op probe (.ok ()) attemptFails fuel =
      (.ok (if op.paymaster_and_data.length < 20 then
          s.minSuccessGas + GAS_FEE_TRANSFER_COST
        else s.minSuccessGas), n) := by
  have hfit2 : probe.gas_used < 18446744073709551616 := by omega
  by_cases h : op.paymaster_and_data.length < 20 <;>
    simp [binary_search_verification_gas, hsucc, asU64, hfit2, hrun,
      UserOperation.paymaster, get_address_from_field, h]

/-- Witness for C4 at a concrete input: probe gas 600, all attempts failing,
no paymaster; the search settles at 1000 and 30000 is added. -/
theorem C4_paymaster_adjustment_witness :
    binary_search_verification_gas ⟨1000, 10, 10⟩ zeroedUserOperation ⟨600, false, []⟩
        (.ok ()) (fun _ => true) 10 = (.ok 31000, 1) := by
  have h := C4_paymaster_adjustment ⟨1000, 10, 10⟩ zeroedUserOperation ⟨600, false, []⟩
    (fun _ => true) 10 ⟨1200, 1000, 1100⟩ 1 rfl (by decide) (by decide)
  simpa using h

/-- Claim C5: a revert decoding as a continuation updates the bounds by
intersection and enters continuation mode; a continuation received in
continuation mode that makes no progress (`cont.min_gas ≤ min_gas` and
`cont.max_gas ≥ max_gas`) aborts with an internal error instead of looping. -/
theorem C5_continuation_handling (rest : List SpoofedSimOutcome) (s : CallGasState)
    (cmin cmax cn : Nat) :
    (¬ (s.is_continuation = true ∧ cmin ≤ s.min_gas ∧ s.max_gas ≤ cmax) →
      estimate_call_gas (.executed (.continuation cmin cmax cn) :: rest) s =
        estimate_call_gas rest
          { min_gas := max s.min_gas cmin, max_gas := min s.max_gas cmax,
            is_continuation := true, num_rounds := s.num_rounds + cn }) ∧
      (s.is_continuation = true → cmin ≤ s.min_gas → s.max_gas ≤ cmax →
        estimate_call_gas (.executed (.continuation cmin cmax cn) :: rest) s =
          .err (.other "estimateCallGas should make progress each time it is called")) := by
  constructor
  · intro h
    simp only [estimate_call_gas]
    rw [if_neg h]
  · intro h1 h2 h3
    simp only [estimate_call_gas]
    rw [if_pos ⟨h1, h2, h3⟩]

/-- Witness for C5 at concrete inputs: a fresh continuation narrows the
bounds; a stuck continuation in continuation mode aborts. -/
theorem C5_continuation_handling_witness :
    estimate_call_gas [.executed (.continuation 7 8 2)] ⟨5, 10, false, 0⟩ = .diverge ∧
      estimate_call_gas [.executed (.continuation 5 10 2)] ⟨5, 10, true, 0⟩ =
        .err (.other "estimateCallGas should make progress each time it is called") := by
  constructor
  · have h := (C5_continuation_handling [] ⟨5, 10, false, 0⟩ 7 8 2).1 (by simp)
    simpa using h
  · exact (C5_continuation_handling [] ⟨5, 10, true, 0⟩ 5 10 2).2 rfl (by decide) (by decide)

/-- Claim C10: the initial guess is twice the probe gas consumption after a
64-bit narrowing conversion; a probe gas consumption of at least `2 ^ 64`
makes the function panic (integer overflow in `as_u64`) instead of returning
a `GasEstimationError`. -/
theorem C10_initial_guess_overflow (settings : Settings) (op : UserOperation)
    (probe : GasUsedResult) (attemptFails : Nat → Bool) (fuel : Nat)
    (hsucc : probe.success = false) :
    (2 ^ 64 ≤ probe.gas_used →
      binary_search_verification_gas settings op probe (.ok ()) attemptFails fuel =
        (.panic, 0)) ∧
      (probe.gas_used < 2 ^ 64 →
        binary_search_verification_gas settings op probe (.ok ()) attemptFails fuel =
          (match runSearch attemptFails fuel
              { maxFailureGas := 0, minSuccessGas := settings.max_verification_gas,
                guess := probe.gas_used * 2 } 0 with
            | (none, n) => (.diverge, n)
            | (some s, n) =>
              (.ok (if op.paymaster.isNone then s.minSuccessGas + GAS_FEE_TRANSFER_COST
                    else s.minSuccessGas), n))) := by
  constructor
  · intro h
    have h2 : ¬ probe.gas_used < 18446744073709551616 := by omega
    simp [binary_search_verification_gas, hsucc, asU64, h2]
  · intro h
    have h2 : probe.gas_used < 18446744073709551616 := by omega
    simp [binary_search_verification_gas, hsucc, asU64, h2]

/-- Witness for C10: the overflow test fixture value `2 ^ 64` (18446744073709551616)
panics; a small probe value enters the search. -/
theorem C10_initial_guess_overflow_witness :
    binary_search_verification_gas ⟨1000, 10, 10⟩ zeroedUserOperation
        ⟨18446744073709551616, false, []⟩ (.ok ()) (fun _ => true) 10 = (.panic, 0) ∧
      binary_search_verification_gas ⟨1000, 10, 10⟩ zeroedUserOperation ⟨600, false, []⟩
          (.ok ()) (fun _ => true) 10 = (.ok 31000, 1) := by
  constructor
  · exact (C10_initial_guess_overflow ⟨1000, 10, 10⟩ zeroedUserOperation
      ⟨18446744073709551616, false, []⟩ (fun _ => true) 10 rfl).1 (by decide)
  · have h := (C10_initial_guess_overflow ⟨1000, 10, 10⟩ zeroedUserOperation
      ⟨600, false, []⟩ (fun _ => true) 10 rfl).2 (by decide)
    simpa using h

/-- Fuel monotonicity of the binary-search loop: if the loop finishes within
some fuel, it finishes within any larger fuel (with the same result kind). -/
theorem runSearch_fuel_mono (o : Nat → Bool) (fuel : Nat) :
    ∀ (fuel2 : Nat) (s : SearchState) (k : Nat), fuel ≤ fuel2 →
      ((runSearch o fuel s k).1).isSome = true →
      ((runSearch o fuel2 s k).1).isSome = true := by
  induction fuel with
  | zero =>
    intro fuel2 s k _ hs
    by_cases hc : continueCond s
    · simp [runSearch, hc] at hs
    · cases fuel2 <;> simp [runSearch, hc]
  | succ fuel ih =>
    intro fuel2 s k hle hs
    by_cases hc : continueCond s
    · obtain ⟨f2, rfl⟩ : ∃ f2, fuel2 = f2 + 1 := ⟨fuel2 - 1, by omega⟩
      simp only [runSearch, hc, if_true] at hs ⊢
      exact ih f2 (searchStep o s) (k + 1) (by omega) hs
    · cases fuel2 <;> simp [runSearch, hc]

/-- Core termination argument for the binary-search loop: once
`max_failure_gas ≥ 10` and the bounds are ordered, a midpoint-guess state
finishes within `gap + 1` further rounds, because the continuation condition
forces a gap of at least 2 and each round strictly shrinks the gap. -/
theorem runSearch_terminates_of_mf_ge (o : Nat → Bool) (g : Nat) :
    ∀ (mf ms k : Nat), 10 ≤ mf → mf ≤ ms → ms - mf ≤ g →
      ((runSearch o (g + 1)
        { maxFailureGas := mf, minSuccessGas := ms, guess := (mf + ms) / 2 } k).1).isSome =
        true := by
  induction g using Nat.strong_induction_on with
  | _ g ih =>
    intro mf ms k h10 hle hgap
    by_cases hc : continueCond ⟨mf, ms, (mf + ms) / 2⟩
    case neg => simp [runSearch, hc]
    case pos =>
      have hmf0 : mf ≠ 0 := by omega
      have hcond : 11 * mf < 10 * ms := by
        simpa [continueCond, hmf0] using hc
      have hms2 : mf + 2 ≤ ms := by omega
      have hdiv := Nat.div_add_mod (mf + ms) 2
      have hmod : (mf + ms) % 2 < 2 := Nat.mod_lt _ (by omega)
      have hg1 : mf + 1 ≤ (mf + ms) / 2 := by omega
      have hg2 : (mf + ms) / 2 + 1 ≤ ms := by omega
      have hgnz : 1 ≤ g := by omega
      simp only [runSearch, hc, if_true]
      cases hb : o ((mf + ms) / 2)
      case false =>
        have hstep : searchStep o ⟨mf, ms, (mf + ms) / 2⟩ =
            ⟨mf, (mf + ms) / 2, (mf + (mf + ms) / 2) / 2⟩ := by
          simp [searchStep, hb]
        rw [hstep]
        have h := ih (g - 1) (by omega) mf ((mf + ms) / 2) (k + 1) h10 (by omega) (by omega)
        rwa [show g - 1 + 1 = g by omega] at h
      case true =>
        have hstep : searchStep o ⟨mf, ms, (mf + ms) / 2⟩ =
            ⟨(mf + ms) / 2, ms, ((mf + ms) / 2 + ms) / 2⟩ := by
          simp [searchStep, hb]
        rw [hstep]
        have h := ih (g - 1) (by omega) ((mf + ms) / 2) ms (k + 1) (by omega) (by omega)
          (by omega)
        rwa [show g - 1 + 1 = g by omega] at h

/-- Claim C6 (amended): each midpoint-guess round of the verification-gas
binary search shrinks the gap `min_success_gas - max_failure_gas` to at most
its rounded-up half; and from any state with `max_failure_gas ≥ 10` and
ordered bounds the loop terminates within `gap + 1` further rounds (hence in
logarithmically many rounds by the halving). Unconditional termination, as
originally claimed, is false: see the counterexample. -/
theorem C6_search_loop_amended :
    (∀ (o : Nat → Bool) (mf ms : Nat), mf ≤ ms →
      (searchStep o ⟨mf, ms, (mf + ms) / 2⟩).minSuccessGas -
          (searchStep o ⟨mf, ms, (mf + ms) / 2⟩).maxFailureGas ≤ (ms - mf + 1) / 2) ∧
      (∀ (o : Nat → Bool) (mf ms k fuel : Nat), 10 ≤ mf → mf ≤ ms → ms - mf < fuel →
        ((runSearch o fuel
          { maxFailureGas := mf, minSuccessGas := ms, guess := (mf + ms) / 2 } k).1).isSome =
          true) := by
  constructor
  · intro o mf ms h
    cases hb : o ((mf + ms) / 2) <;> simp [searchStep, hb] <;> omega
  · intro o mf ms k fuel h10 hle hgap
    have h := runSearch_terminates_of_mf_ge o (fuel - 1) mf ms k h10 hle (by omega)
    rwa [show fuel - 1 + 1 = fuel by omega] at h

/-- Witness for C6 (amended) at a concrete input: state (10, 20), all
attempts failing. -/
theorem C6_search_loop_amended_witness :
    ((searchStep (fun _ => true) ⟨10, 20, 15⟩).minSuccessGas -
        (searchStep (fun _ => true) ⟨10, 20, 15⟩).maxFailureGas ≤ (20 - 10 + 1) / 2) ∧
      ((runSearch (fun _ => true) 11
        { maxFailureGas := 10, minSuccessGas := 20, guess := 15 } 0).1).isSome = true :=
  ⟨C6_search_loop_amended.1 (fun _ => true) 10 20 (by decide),
   C6_search_loop_amended.2 (fun _ => true) 10 20 0 11 (by decide) (by decide) (by decide)⟩

set_option maxRecDepth 10000 in
/-- Counterexample to claim C6 as stated: with `max_verification_gas = 1`, a
probe that used 0 gas (initial guess 0) and every attempt failing, the loop
never terminates — the state stays at `max_failure_gas = 0`,
`min_success_gas = 1`, `guess = 0` forever, so even 1000 rounds (far beyond
any bound logarithmic in `max_verification_gas`) do not reach the stop
condition. -/
theorem C6_termination_counterexample :
    binary_search_verification_gas ⟨1, 5000, 100000⟩ zeroedUserOperation ⟨0, false, []⟩
        (.ok ()) (fun _ => true) 1000 = (.diverge, 1000) := by decide

/-- Claim C7: converting an optional-gas operation to a full one replaces a
missing-or-zero `call_gas_limit` by `max_call_gas`, a missing-or-zero
`verification_gas_limit` by `max_verification_gas`, a missing-or-zero
`pre_verification_gas` by `max_call_gas`; keeps supplied non-zero values;
defaults unset fees to 0; and passes the byte-string fields (and sender and
nonce) through unchanged. -/
theorem C7_into_user_operation (o : UserOperationOptionalGas) (mcg mvg : Nat) :
    ((o.call_gas_limit = none ∨ o.call_gas_limit = some 0) →
      (into_user_operation o mcg mvg).call_gas_limit = mcg) ∧
      (∀ x, o.call_gas_limit = some x → x ≠ 0 →
        (into_user_operation o mcg mvg).call_gas_limit = x) ∧
      ((o.verification_gas_limit = none ∨ o.verification_gas_limit = some 0) →
        (into_user_operation o mcg mvg).verification_gas_limit = mvg) ∧
      (∀ x, o.verification_gas_limit = some x → x ≠ 0 →
        (into_user_operation o mcg mvg).verification_gas_limit = x) ∧
      ((o.pre_verification_gas = none ∨ o.pre_verification_gas = some 0) →
        (into_user_operation o mcg mvg).pre_verification_gas = mcg) ∧
      (∀ x, o.pre_verification_gas = some x → x ≠ 0 →
        (into_user_operation o mcg mvg).pre_verification_gas = x) ∧
      (into_user_operation o mcg mvg).max_fee_per_gas = o.max_fee_per_gas.getD 0 ∧
      (into_user_operation o mcg mvg).max_priority_fee_per_gas =
        o.max_priority_fee_per_gas.getD 0 ∧
      (into_user_operation o mcg mvg).sender = o.sender ∧
      (into_user_operation o mcg mvg).nonce = o.nonce ∧
      (into_user_operation o mcg mvg).init_code = o.init_code ∧
      (into_user_operation o mcg mvg).call_data = o.call_data ∧
      (into_user_operation o mcg mvg).paymaster_and_data = o.paymaster_and_data ∧
      (into_user_operation o mcg mvg).signature = o.signature := by
  refine ⟨?_, ?_, ?_, ?_, ?_, ?_, rfl, rfl, rfl, rfl, rfl, rfl, rfl, rfl⟩
  · rintro (h | h) <;> simp [into_user_operation, default_if_none_or_equal, h]
  · intro x h hx
    simp [into_user_operation, default_if_none_or_equal, h, hx]
  · rintro (h | h) <;> simp [into_user_operation, default_if_none_or_equal, h]
  · intro x h hx
    simp [into_user_operation, default_if_none_or_equal, h, hx]
  · rintro (h | h) <;> simp [into_user_operation, default_if_none_or_equal, h]
  · intro x h hx
    simp [into_user_operation, default_if_none_or_equal, h, hx]

/-- Witness for C7 at concrete inputs covering the zero, unset, and non-zero
cases of all three optional gas scalars. -/
theorem C7_into_user_operation_witness :
    (into_user_operation ⟨1, 2, [3], [4], some 0, some 7, none, none, some 5, [6], [7]⟩
        100 200).call_gas_limit = 100 ∧
      (into_user_operation ⟨1, 2, [3], [4], some 9, none, some 11, some 0, none, [6], [7]⟩
        100 200).call_gas_limit = 9 ∧
      (into_user_operation ⟨1, 2, [3], [4], some 9, none, some 11, some 0, none, [6], [7]⟩
        100 200).verification_gas_limit = 200 ∧
      (into_user_operation ⟨1, 2, [3], [4], some 0, some 7, none, none, some 5, [6], [7]⟩
        100 200).verification_gas_limit = 7 ∧
      (into_user_operation ⟨1, 2, [3], [4], some 0, some 7, none, none, some 5, [6], [7]⟩
        100 200).pre_verification_gas = 100 ∧
      (into_user_operation ⟨1, 2, [3], [4], some 9, none, some 11, some 0, none, [6], [7]⟩
        100 200).pre_verification_gas = 11 :=
  ⟨(C7_into_user_operation ⟨1, 2, [3], [4], some 0, some 7, none, none, some 5, [6], [7]⟩
      100 200).1 (Or.inr rfl),
   (C7_into_user_operation ⟨1, 2, [3], [4], some 9, none, some 11, some 0, none, [6], [7]⟩
      100 200).2.1 9 rfl (by decide),
   (C7_into_user_operation ⟨1, 2, [3], [4], some 9, none, some 11, some 0, none, [6], [7]⟩
      100 200).2.2.1 (Or.inl rfl),
   (C7_into_user_operation ⟨1, 2, [3], [4], some 0, some 7, none, none, some 5, [6], [7]⟩
      100 200).2.2.2.1 7 rfl (by decide),
   (C7_into_user_operation ⟨1, 2, [3], [4], some 0, some 7, none, none, some 5, [6], [7]⟩
      100 200).2.2.2.2.1 (Or.inl rfl),
   (C7_into_user_operation ⟨1, 2, [3], [4], some 9, none, some 11, some 0, none, [6], [7]⟩
      100 200).2.2.2.2.2.1 11 rfl (by decide)⟩

set_option maxRecDepth 4000 in
set_option maxHeartbeats 4000000 in
/-- Claim C8: the v0.6 hash is the keccak of the ABI encoding of the keccak
of the packed operation (byte-string fields replaced by their digests)
together with the entry point and chain id; on the all-zero operation with
entry point 0x66a15edcc3b50a663e72f1457ffd49b9ae284ddc and chain id 1337 it
equals 0xdca97c3b49558ab360659f6ead939773be8bf26631e61bb17045bb70dc983b2d. -/
theorem C8_hash_v0_6 :
    (∀ (op : UserOperation) (entry_point chain_id : Nat),
      op.hash entry_point chain_id =
        keccak256 (keccak256 (packedForHash op) ++ natToBytesBE 32 entry_point ++
          natToBytesBE 32 chain_id)) ∧
      zeroedUserOperation.hash 0x66a15edcc3b50a663e72f1457ffd49b9ae284ddc 1337 =
        [0xdc, 0xa9, 0x7c, 0x3b, 0x49, 0x55, 0x8a, 0xb3, 0x60, 0x65, 0x9f, 0x6e, 0xad, 0x93,
         0x97, 0x73, 0xbe, 0x8b, 0xf2, 0x66, 0x31, 0xe6, 0x1b, 0xb1, 0x70, 0x45, 0xbb, 0x70,
         0xdc, 0x98, 0x3b, 0x2d] :=
  ⟨fun _ _ _ => rfl, by decide⟩

/-- Taking the length of the first part of a three-part concatenation
returns that part. -/
theorem splice_take (A t B : List Nat) (n : Nat) (hA : A.length = n) :
    (A ++ t ++ B).take n = A := by
  rw [← hA, List.append_assoc]
  exact List.take_left A (t ++ B)

/-- The middle part of a three-part concatenation, recovered by drop and
take. -/
theorem splice_middle (A t B : List Nat) (n m : Nat) (hA : A.length = n)
    (ht : t.length = m) : ((A ++ t ++ B).drop n).take m = t := by
  rw [← hA, ← ht, List.append_assoc, List.drop_left]
  exact List.take_left t B

/-- Dropping the first two parts of a three-part concatenation returns the
last part. -/
theorem splice_drop (A t B : List Nat) (n : Nat) (hA : A.length + t.length = n) :
    (A ++ t ++ B).drop n = B := by
  rw [← hA, show A.length + t.length = (A ++ t).length by simp]
  exact List.drop_left (A ++ t) B

set_option maxRecDepth 100000 in
/-- Claim C9: for every 20-byte target, relocation writes the target at bytes
[137, 157) of the proxy blob and leaves every byte outside that range
unchanged; the sentinel address occurs in the blob at exactly one offset,
namely `PROXY_TARGET_OFFSET = 137`. -/
theorem C9_proxy_relocation (target : List Nat) (ht : target.length = 20) :
    PROXY_TARGET_OFFSET = 137 ∧
      sentinelOffsets CALLGASESTIMATIONPROXY_DEPLOYED_BYTECODE = [137] ∧
      (estimation_proxy_bytecode_with_target CALLGASESTIMATIONPROXY_DEPLOYED_BYTECODE
          target).take 137 = CALLGASESTIMATIONPROXY_DEPLOYED_BYTECODE.take 137 ∧
      ((estimation_proxy_bytecode_with_target CALLGASESTIMATIONPROXY_DEPLOYED_BYTECODE
          target).drop 137).take 20 = target ∧
      (estimation_proxy_bytecode_with_target CALLGASESTIMATIONPROXY_DEPLOYED_BYTECODE
          target).drop 157 = CALLGASESTIMATIONPROXY_DEPLOYED_BYTECODE.drop 157 := by
  have hlen : (CALLGASESTIMATIONPROXY_DEPLOYED_BYTECODE.take PROXY_TARGET_OFFSET).length = 137 := by
    decide
  refine ⟨rfl, by decide, ?_, ?_, ?_⟩
  · exact splice_take _ target _ 137 hlen
  · exact splice_middle _ target _ 137 20 hlen ht
  · exact splice_drop _ target _ 157 (by rw [hlen, ht])

/-- Witness for C9 at a concrete 20-byte target. -/
theorem C9_proxy_relocation_witness :
    PROXY_TARGET_OFFSET = 137 ∧
      sentinelOffsets CALLGASESTIMATIONPROXY_DEPLOYED_BYTECODE = [137] ∧
      (estimation_proxy_bytecode_with_target CALLGASESTIMATIONPROXY_DEPLOYED_BYTECODE
          (List.replicate 20 0xAB)).take 137 =
        CALLGASESTIMATIONPROXY_DEPLOYED_BYTECODE.take 137 ∧
      ((estimation_proxy_bytecode_with_target CALLGASESTIMATIONPROXY_DEPLOYED_BYTECODE
          (List.replicate 20 0xAB)).drop 137).take 20 = List.replicate 20 0xAB ∧
      (estimation_proxy_bytecode_with_target CALLGASESTIMATIONPROXY_DEPLOYED_BYTECODE
          (List.replicate 20 0xAB)).drop 157 =
        CALLGASESTIMATIONPROXY_DEPLOYED_BYTECODE.drop 157 :=
  C9_proxy_relocation (List.replicate 20 0xAB) (by decide)

end Rundler
